import Mathlib

/-!
# Verification of the gpu-tracing rendering core

A shallow embedding of `src/main.rs` and `src/render.rs` of the
`gpu-tracing` repository.  The wgpu API surface that the program touches
is modelled by explicit Lean data types; the program's own logic
(format selection, surface configuration, renderer construction and the
per-frame command recording) is translated function by function.
-/

namespace GpuTracing

/-! ## wgpu data model -/

/-- `wgpu::TextureFormat`, restricted to the constructors the program can
observe.  `other n` stands for any format that is neither `Rgba8Unorm` nor
`Bgra8Unorm` (the program only pattern-matches on those two). -/
inductive TextureFormat where
  | Rgba8Unorm
  | Bgra8Unorm
  | Rgba8UnormSrgb
  | Bgra8UnormSrgb
  | Rgba16Float
  | other (n : Nat)
deriving DecidableEq, Repr

/-- `wgpu::CompositeAlphaMode`. -/
inductive CompositeAlphaMode where
  | Auto
  | Opaque
  | PreMultiplied
  | PostMultiplied
  | Inherit
deriving DecidableEq, Repr

/-- `wgpu::PresentMode` (the variants relevant here). -/
inductive PresentMode where
  | AutoVsync
  | AutoNoVsync
  | Fifo
  | Immediate
  | Mailbox
deriving DecidableEq, Repr

/-- `wgpu::TextureUsages` as a set of flags (only the one used appears). -/
inductive TextureUsage where
  | RENDER_ATTACHMENT
  | COPY_SRC
  | COPY_DST
  | TEXTURE_BINDING
  | STORAGE_BINDING
deriving DecidableEq, Repr

/-- `wgpu::SurfaceCapabilities`: the fields `connect_to_gpu` reads. -/
structure SurfaceCapabilities where
  formats : List TextureFormat
  alpha_modes : List CompositeAlphaMode
deriving DecidableEq, Repr

/-- `wgpu::SurfaceConfiguration` as built in `connect_to_gpu`. -/
structure SurfaceConfiguration where
  usage : TextureUsage
  format : TextureFormat
  width : Nat
  height : Nat
  present_mode : PresentMode
  desired_maximum_frame_latency : Nat
  alpha_mode : CompositeAlphaMode
  view_formats : List TextureFormat
deriving DecidableEq, Repr

/-- The window's inner size (`winit::dpi::PhysicalSize`). -/
structure WindowSize where
  width : Nat
  height : Nat
deriving DecidableEq, Repr

/-- Outcome of a fallible step of the program.  `setupError` models an
`anyhow` error value produced through `.context(...)` (a recoverable
value returned to the caller); `panicked` models a Rust panic (an
`expect`/`panic!`/out-of-bounds abort, not a value the caller receives). -/
inductive GpuError where
  | setupError (msg : String)
  | panicked (msg : String)
deriving DecidableEq, Repr

/-! ## `connect_to_gpu` (src/main.rs lines 54–98)

The adapter/device negotiation is platform I/O; the logic that the
program itself contributes starts at the capability query: format
selection, then surface configuration.  That part is translated here as
a pure function of the reported capabilities and the window size. -/

/-- The predicate of `matches!(it, Rgba8Unorm | Bgra8Unorm)` in
`connect_to_gpu` (src/main.rs line 83). -/
def isPreferredFormat : TextureFormat → Bool
  | .Rgba8Unorm => true
  | .Bgra8Unorm => true
  | _ => false

/-- `caps.formats.into_iter().find(|it| matches!(it, Rgba8Unorm | Bgra8Unorm))`
(src/main.rs lines 80–83). -/
def selectFormat (formats : List TextureFormat) : Option TextureFormat :=
  formats.find? isPreferredFormat

/-- The error message attached by `.context(...)` when no preferred
format is found (src/main.rs line 84). -/
def noFormatMsg : String :=
  "Couldn't find preferred texture format (Rgba8Unorm or Bgra8Unorm)"

/-- `connect_to_gpu` from the capability query on (src/main.rs lines
79–97): select the first `Rgba8Unorm`/`Bgra8Unorm` format, build the
`SurfaceConfiguration` literal, indexing `caps.alpha_modes[0]` with no
bounds check (an empty list is a panic, not an error value). -/
def connect_to_gpu (caps : SurfaceCapabilities) (size : WindowSize) :
    Except GpuError (SurfaceConfiguration × TextureFormat) :=
  match selectFormat caps.formats with
  | none => .error (.setupError noFormatMsg)
  | some format =>
    match caps.alpha_modes[0]? with
    | none => .error (.panicked "index out of bounds: the len is 0 but the index is 0")
    | some alpha =>
      .ok ({ usage := .RENDER_ATTACHMENT
             format := format
             width := size.width
             height := size.height
             present_mode := .AutoVsync
             desired_maximum_frame_latency := 3
             alpha_mode := alpha
             view_formats := [] }, format)

/-! ## `Uniforms` and its byte representation (src/render.rs lines 4–9)

`Uniforms` is `#[repr(C)] { width: u32, height: u32 }` with
`bytemuck::Pod`; `bytemuck::bytes_of` yields its in-memory bytes:
four little-endian bytes of `width` followed by four of `height`.
`u32` values are modelled as `Nat` below `2^32`. -/

structure Uniforms where
  width : Nat
  height : Nat
deriving DecidableEq, Repr

/-- `std::mem::size_of::<Uniforms>()`: two 4-byte fields, `repr(C)`,
no padding. -/
def size_of_Uniforms : Nat := 8

/-- The four little-endian bytes of a `u32`. -/
def u32Bytes (x : Nat) : List Nat :=
  [x % 256, x / 256 % 256, x / 256 / 256 % 256, x / 256 / 256 / 256 % 256]

/-- `bytemuck::bytes_of(&uniforms)`: byte representation of the
`repr(C)` struct, `width` first. -/
def bytes_of (u : Uniforms) : List Nat :=
  u32Bytes u.width ++ u32Bytes u.height

/-- Reassemble a `u32` from its four little-endian bytes. -/
def u32OfBytes (b0 b1 b2 b3 : Nat) : Nat :=
  b0 + 256 * (b1 + 256 * (b2 + 256 * b3))

/-- Read a `Uniforms` value back from an 8-byte region
(`bytemuck::from_bytes::<Uniforms>`); `none` if the length is wrong. -/
def uniformsOfBytes : List Nat → Option Uniforms
  | [b0, b1, b2, b3, b4, b5, b6, b7] =>
    some ⟨u32OfBytes b0 b1 b2 b3, u32OfBytes b4 b5 b6 b7⟩
  | _ => none

/-! ## GPU objects held by the renderer -/

/-- `wgpu::BufferUsages` flags used by the uniform buffer. -/
inductive BufferUsage where
  | UNIFORM
  | COPY_DST
  | COPY_SRC
  | STORAGE
  | MAP_READ
  | MAP_WRITE
deriving DecidableEq, Repr

/-- `wgpu::BufferDescriptor` (the fields the program sets). -/
structure BufferDescriptor where
  label : Option String
  size : Nat
  usage : List BufferUsage
  mapped_at_creation : Bool
deriving DecidableEq, Repr

/-- A device buffer: its creation descriptor, its current byte
contents, and whether it is currently mapped for CPU access. -/
structure GpuBuffer where
  descriptor : BufferDescriptor
  contents : List Nat
  mapped : Bool
deriving DecidableEq, Repr

/-- Errors a device can deliver to the uncaptured-error callback. -/
inductive DeviceError where
  | validation (msg : String)
  | outOfMemory (msg : String)
  | deviceLost (msg : String)
deriving DecidableEq, Repr

/-- Rendered text of a `DeviceError` (the `{e}` interpolation). -/
def DeviceError.text : DeviceError → String
  | .validation m => m
  | .outOfMemory m => m
  | .deviceLost m => m

/-- What an uncaptured-error callback does with an error: abort the
process (a panic inside the hook) or return, letting execution
continue. -/
inductive CallbackOutcome where
  | abortProcess (msg : String)
  | recovered
deriving DecidableEq, Repr

/-- The closure passed to `device.on_uncaptured_error` in
`PathTracer::new` (src/render.rs lines 28–30):
`panic!("Aborting due to an error: {e}")` for every error. -/
def uncapturedErrorHook (e : DeviceError) : CallbackOutcome :=
  .abortProcess ("Aborting due to an error: " ++ e.text)

/-! ## Display pipeline construction (src/render.rs lines 109–164) -/

/-- `wgpu::ShaderStages` as a flag set. -/
structure ShaderStages where
  vertex : Bool
  fragment : Bool
  compute : Bool
deriving DecidableEq, Repr

/-- `wgpu::ShaderStages::FRAGMENT`. -/
def ShaderStages.FRAGMENT : ShaderStages :=
  { vertex := false, fragment := true, compute := false }

/-- `wgpu::BufferBindingType`. -/
inductive BufferBindingType where
  | Uniform
  | Storage (read_only : Bool)
deriving DecidableEq, Repr

/-- `wgpu::BindingType` (only the buffer case is used). -/
inductive BindingType where
  | Buffer (ty : BufferBindingType) (has_dynamic_offset : Bool)
      (min_binding_size : Option Nat)
  | Sampler
  | Texture
deriving DecidableEq, Repr

/-- `wgpu::BindGroupLayoutEntry`. -/
structure BindGroupLayoutEntry where
  binding : Nat
  visibility : ShaderStages
  ty : BindingType
  count : Option Nat
deriving DecidableEq, Repr

/-- `wgpu::BindGroupLayoutDescriptor`. -/
structure BindGroupLayoutDescriptor where
  label : Option String
  entries : List BindGroupLayoutEntry
deriving DecidableEq, Repr

/-- `wgpu::PrimitiveTopology`. -/
inductive PrimitiveTopology where
  | PointList
  | LineList
  | LineStrip
  | TriangleList
  | TriangleStrip
deriving DecidableEq, Repr

/-- `wgpu::FrontFace`. -/
inductive FrontFace where
  | Ccw
  | Cw
deriving DecidableEq, Repr

/-- `wgpu::PolygonMode`. -/
inductive PolygonMode where
  | Fill
  | Line
  | Point
deriving DecidableEq, Repr

/-- `wgpu::Face` (cull-mode faces). -/
inductive Face where
  | Front
  | Back
deriving DecidableEq, Repr

/-- `wgpu::PrimitiveState` (fields relevant to the claims plus the
defaulted cull mode and strip index format). -/
structure PrimitiveState where
  topology : PrimitiveTopology
  front_face : FrontFace
  polygon_mode : PolygonMode
  cull_mode : Option Face
  unclipped_depth : Bool
deriving DecidableEq, Repr

/-- `wgpu::PrimitiveState::default()`. -/
def PrimitiveState.default : PrimitiveState :=
  { topology := .TriangleList
    front_face := .Ccw
    polygon_mode := .Fill
    cull_mode := none
    unclipped_depth := false }

/-- `wgpu::MultisampleState`. -/
structure MultisampleState where
  count : Nat
  mask : Nat
  alpha_to_coverage_enabled : Bool
deriving DecidableEq, Repr

/-- `wgpu::MultisampleState::default()`: one sample (no
multisampling), all mask bits set, no alpha-to-coverage. -/
def MultisampleState.default : MultisampleState :=
  { count := 1, mask := 2 ^ 64 - 1, alpha_to_coverage_enabled := false }

/-- A stand-in for `wgpu::BlendState`; only its presence or absence
matters to the program (`blend: None`). -/
inductive BlendState where
  | replace
  | alphaBlending
deriving DecidableEq, Repr

/-- `wgpu::ColorWrites` as a flag set. -/
structure ColorWrites where
  red : Bool
  green : Bool
  blue : Bool
  alpha : Bool
deriving DecidableEq, Repr

/-- `wgpu::ColorWrites::ALL`. -/
def ColorWrites.ALL : ColorWrites :=
  { red := true, green := true, blue := true, alpha := true }

/-- `wgpu::ColorTargetState`. -/
structure ColorTargetState where
  format : TextureFormat
  blend : Option BlendState
  write_mask : ColorWrites
deriving DecidableEq, Repr

/-- A stand-in for depth/stencil state; the program passes `None`. -/
structure DepthStencilState where
  format : TextureFormat
deriving DecidableEq, Repr

/-- The shape of the render pipeline `create_display_pipeline` builds:
label, the bind-group layouts of its layout, vertex/fragment entry
points, fixed-function state and color targets. -/
structure RenderPipelineDescriptor where
  label : Option String
  bind_group_layouts : List BindGroupLayoutDescriptor
  vertex_entry_point : Option String
  vertex_buffers : List Unit
  primitive : PrimitiveState
  depth_stencil : Option DepthStencilState
  multisample : MultisampleState
  fragment_entry_point : Option String
  fragment_targets : List (Option ColorTargetState)
  multiview : Option Nat
deriving DecidableEq, Repr

/-- `create_display_pipeline` (src/render.rs lines 109–164): builds the
single bind-group layout and the display pipeline descriptor, returning
both.  Field for field from the source; fields the source leaves to
`..Default::default()` take the wgpu defaults. -/
def create_display_pipeline (format : TextureFormat) :
    RenderPipelineDescriptor × BindGroupLayoutDescriptor :=
  let bind_group_layout : BindGroupLayoutDescriptor :=
    { label := none
      entries := [{ binding := 0
                    visibility := ShaderStages.FRAGMENT
                    ty := .Buffer .Uniform false none
                    count := none }] }
  let pipeline : RenderPipelineDescriptor :=
    { label := some "display"
      bind_group_layouts := [bind_group_layout]
      vertex_entry_point := some "display_vs"
      vertex_buffers := []
      primitive := { PrimitiveState.default with
                      topology := .TriangleList
                      front_face := .Ccw
                      polygon_mode := .Fill }
      depth_stencil := none
      multisample := MultisampleState.default
      fragment_entry_point := some "display_fs"
      fragment_targets := [some { format := format
                                  blend := none
                                  write_mask := ColorWrites.ALL }]
      multiview := none }
  (pipeline, bind_group_layout)

/-! ## `PathTracer` (src/render.rs lines 11–98) -/

/-- `wgpu::BindGroupEntry` with a whole-buffer binding: the binding
index, the bound buffer's byte contents, the offset and the (absent)
size of the binding (src/render.rs lines 52–59). -/
structure BindGroupEntry where
  binding : Nat
  buffer_contents : List Nat
  offset : Nat
  size : Option Nat
deriving DecidableEq, Repr

/-- `wgpu::BindGroup` as created by `device.create_bind_group`. -/
structure BindGroup where
  label : Option String
  layout : BindGroupLayoutDescriptor
  entries : List BindGroupEntry
deriving DecidableEq, Repr

/-- The CPU-visible state of `PathTracer` (src/render.rs lines 11–18),
together with the record of uncaptured-error hooks registered on the
device, so that `PathTracer::new`'s device-level side effect is
observable in the model. -/
structure PathTracer where
  error_hooks : List (DeviceError → CallbackOutcome)
  display_bind_group : BindGroup
  display_pipeline : RenderPipelineDescriptor
  uniform_buffer : GpuBuffer
  uniforms : Uniforms

/-- `PathTracer::new` (src/render.rs lines 21–70), statement by
statement: register the uncaptured-error hook, build the display
pipeline, create the uniform buffer (`size_of::<Uniforms>()` bytes,
`UNIFORM | COPY_DST`, mapped at creation, initially zeroed), copy
`bytes_of(&uniforms)` into the mapped range, unmap, then create the
bind group binding the whole buffer at binding 0. -/
def PathTracer.new (width height : Nat) (format : TextureFormat) :
    PathTracer :=
  let hooks : List (DeviceError → CallbackOutcome) := [uncapturedErrorHook]
  let pl := create_display_pipeline format
  let display_pipeline := pl.1
  let display_layout := pl.2
  let uniforms : Uniforms := { width := width, height := height }
  let created : GpuBuffer :=
    { descriptor := { label := some "uniforms"
                      size := size_of_Uniforms
                      usage := [.UNIFORM, .COPY_DST]
                      mapped_at_creation := true }
      contents := List.replicate size_of_Uniforms 0
      mapped := true }
  let written : GpuBuffer := { created with contents := bytes_of uniforms }
  let uniform_buffer : GpuBuffer := { written with mapped := false }
  let display_bind_group : BindGroup :=
    { label := none
      layout := display_layout
      entries := [{ binding := 0
                    buffer_contents := uniform_buffer.contents
                    offset := 0
                    size := none }] }
  { error_hooks := hooks
    display_bind_group := display_bind_group
    display_pipeline := display_pipeline
    uniform_buffer := uniform_buffer
    uniforms := uniforms }

/-! ## `render_frame` (src/render.rs lines 72–97)

The body of `render_frame` is a straight-line sequence of GPU command
recordings against an immutably borrowed `self`.  It is modelled as the
trace of API calls it performs, plus explicit state passing to make the
absence of CPU-visible mutation a statement rather than a convention. -/

/-- A texture view is identified by an id (which presentable image of
the swapchain it views). -/
abbrev TextureView := Nat

/-- `wgpu::Color` with 64-bit float channels, modelled as rationals. -/
structure Color where
  r : ℚ
  g : ℚ
  b : ℚ
  a : ℚ
deriving DecidableEq, Repr

/-- `wgpu::Color::BLACK`. -/
def Color.BLACK : Color := { r := 0, g := 0, b := 0, a := 1 }

/-- `wgpu::LoadOp` for a color attachment. -/
inductive LoadOp where
  | Clear (c : Color)
  | Load
deriving DecidableEq, Repr

/-- `wgpu::StoreOp`. -/
inductive StoreOp where
  | Store
  | Discard
deriving DecidableEq, Repr

/-- One recorded API call of `render_frame`, in order. -/
inductive RenderCmd where
  | createCommandEncoder (label : Option String)
  | beginRenderPass (label : Option String) (target : TextureView)
      (load : LoadOp) (store : StoreOp)
  | setPipeline (p : RenderPipelineDescriptor)
  | setBindGroup (index : Nat) (g : BindGroup)
  | draw (vertexStart vertexEnd instanceStart instanceEnd : Nat)
  | endRenderPass
  | finishEncoder
  | queueSubmit (commandBuffers : Nat)
deriving DecidableEq, Repr

/-- `PathTracer::render_frame` (src/render.rs lines 72–97) as a state
transition: the returned `PathTracer` is the receiver after the call
(the receiver is an immutable borrow and no field is assigned), and the
trace lists every API call the body makes, in program order.
`queueSubmit 1` records `queue.submit(Some(command_buffer))`: an
iterator of exactly one command buffer. -/
def PathTracer.render_frame (s : PathTracer) (target : TextureView) :
    PathTracer × List RenderCmd :=
  (s,
   [RenderCmd.createCommandEncoder (some "render frame"),
    RenderCmd.beginRenderPass (some "display pass") target
      (LoadOp.Clear Color.BLACK) StoreOp.Store,
    RenderCmd.setPipeline s.display_pipeline,
    RenderCmd.setBindGroup 0 s.display_bind_group,
    RenderCmd.draw 0 6 0 1,
    RenderCmd.endRenderPass,
    RenderCmd.finishEncoder,
    RenderCmd.queueSubmit 1])

/-! ## The redraw-driven frame loop (src/main.rs lines 30–49) -/

/-- A presentable image handed out by `surface.get_current_texture()`,
identified by which swapchain image it is. -/
structure SurfaceTexture where
  image : Nat
deriving DecidableEq, Repr

/-- `frame.texture.create_view(&TextureViewDescriptor::default())`:
a view onto the acquired image. -/
def SurfaceTexture.create_view (f : SurfaceTexture) : TextureView :=
  f.image

/-- Result of running a piece of code that may panic. -/
inductive PanicOr (α : Type) where
  | panicked (msg : String)
  | ok (a : α)
deriving DecidableEq, Repr

/-- Observable events of one pass of the event loop, as seen from the
surface/queue: command-buffer submissions and presentations. -/
inductive LoopEvent where
  | submission
  | presentation
deriving DecidableEq, Repr

/-- Project a recorded API call to its loop-observable event: each
`queue.submit` of k command buffers contributes k submissions. -/
def submissionsOf (c : RenderCmd) : List LoopEvent :=
  match c with
  | .queueSubmit k => List.replicate k .submission
  | _ => []

/-- The `WindowEvent::RedrawRequested` arm (src/main.rs lines 35–45):
`acquired` is what `surface.get_current_texture()` returned (`none`
models its error case).  On `none`, `.expect("Failed to get current
texture")` panics with that message; otherwise the handler creates the
view, calls `render_frame`, and presents.  The result is the loop
events of the pass. -/
def redrawRequested (s : PathTracer) (acquired : Option SurfaceTexture) :
    PanicOr (List LoopEvent) :=
  match acquired with
  | none => .panicked "Failed to get current texture"
  | some frame =>
    let render_target := frame.create_view
    let r := s.render_frame render_target
    .ok ((r.2.flatMap submissionsOf) ++ [LoopEvent.presentation])

/-- `n` consecutive redraw signals, each successfully acquiring image
`i` on the `i`-th frame: the concatenated loop events. -/
def runRedraws (s : PathTracer) : Nat → List LoopEvent
  | 0 => []
  | n + 1 =>
    runRedraws s n ++
      (match redrawRequested s (some { image := n }) with
       | .ok evs => evs
       | .panicked _ => [])

/-- How many times `e` occurs in a run. -/
def countEvents (e : LoopEvent) (l : List LoopEvent) : Nat :=
  l.count e

/-! ## Semantics of the recorded render pass

`render_frame`'s pass has load op `Clear(BLACK)` and store op `Store`:
the attachment's previous contents are discarded before the draw runs.
The draw's output is a deterministic function of the bound pipeline
state and the cleared attachment — the shader is an opaque asset, so it
is a parameter `drawFn` constrained only to map an attachment to an
attachment of the same extent. -/

/-- A color attachment: its extent and its pixels. -/
structure Attachment where
  width : Nat
  height : Nat
  pixels : List Color
deriving DecidableEq, Repr

/-- `LoadOp.Clear c`: every pixel becomes `c`; `LoadOp.Load` keeps the
previous contents. -/
def applyLoadOp : LoadOp → Attachment → Attachment
  | .Clear c, t => { t with pixels := List.replicate (t.width * t.height) c }
  | .Load, t => t

/-- Execute `render_frame`'s pass on an attachment: clear to black,
then run the draw (whose output `drawFn` depends on the bound uniforms
and the cleared attachment). -/
def execDisplayPass (drawFn : Uniforms → Attachment → Attachment)
    (s : PathTracer) (t : Attachment) : Attachment :=
  drawFn s.uniforms (applyLoadOp (LoadOp.Clear Color.BLACK) t)

/-- `drawFn` is a draw: it writes pixels but cannot change the
attachment's extent. -/
def PreservesExtent (drawFn : Uniforms → Attachment → Attachment) : Prop :=
  ∀ u t, (drawFn u t).width = t.width ∧ (drawFn u t).height = t.height

/-- A concrete draw function for instantiation: repaint every pixel
white.  It preserves the attachment's extent. -/
def whiteDraw (_ : Uniforms) (t : Attachment) : Attachment :=
  { t with
    pixels := List.replicate (t.width * t.height) ⟨1, 1, 1, 1⟩ }

/-- `true` exactly on the `ok` constructor: whether a possibly-panicking
computation produced a value its caller can receive. -/
def PanicOr.isOk {α : Type} : PanicOr α → Bool
  | .ok _ => true
  | .panicked _ => false

/-- `true` when the callback outcome aborts the process. -/
def CallbackOutcome.isFatal : CallbackOutcome → Bool
  | .abortProcess _ => true
  | .recovered => false

/-! ## Helper lemmas -/

/-- `List.find?` returns the first element satisfying `p`: it succeeds
whenever one exists, its result is at some index `i`, and every earlier
index fails `p`. -/
theorem find?_first_index {α : Type} (p : α → Bool) :
    ∀ l : List α, (∃ x ∈ l, p x = true) →
      ∃ (i : Nat) (g : α), l[i]? = some g ∧ l.find? p = some g ∧ p g = true ∧
        ∀ j, j < i → ∀ y, l[j]? = some y → p y = false := by
  intro l
  induction l with
  | nil => rintro ⟨x, hx, _⟩; cases hx
  | cons a tl ih =>
    rintro ⟨x, hx, hpx⟩
    cases hpa : p a with
    | true =>
      exact ⟨0, a, List.getElem?_cons_zero, List.find?_cons_of_pos _ hpa, hpa,
        fun j hj y hy => absurd hj (Nat.not_lt_zero j)⟩
    | false =>
      have hmem : x ∈ tl := by
        cases hx with
        | head => rw [hpa] at hpx; cases hpx
        | tail _ h => exact h
      obtain ⟨i, g, hget, hfind, hpg, hfirst⟩ := ih ⟨x, hmem, hpx⟩
      refine ⟨i + 1, g, ?_, ?_, hpg, ?_⟩
      · rw [List.getElem?_cons_succ]; exact hget
      · rw [List.find?_cons_of_neg _ (by simp [hpa]), hfind]
      · intro j hj y hy
        cases j with
        | zero =>
          rw [List.getElem?_cons_zero] at hy
          cases hy; exact hpa
        | succ k =>
          rw [List.getElem?_cons_succ] at hy
          exact hfirst k (Nat.lt_of_succ_lt_succ hj) y hy

/-- When some element of `caps.formats` is accepted, format selection
succeeds. -/
theorem selectFormat_isSome (formats : List TextureFormat)
    (h : ∃ f ∈ formats, isPreferredFormat f = true) :
    ∃ g, selectFormat formats = some g := by
  obtain ⟨_, g, _, hfind, _, _⟩ := find?_first_index isPreferredFormat formats h
  exact ⟨g, hfind⟩

/-- One successful pass of the redraw handler yields exactly one
submission followed by one presentation. -/
theorem redrawRequested_some (s : PathTracer) (frame : SurfaceTexture) :
    redrawRequested s (some frame) =
      .ok [LoopEvent.submission, LoopEvent.presentation] := rfl

/-- Counting one event kind in `n` successful redraw passes gives `n`
for submissions and `n` for presentations. -/
theorem countEvents_runRedraws (s : PathTracer) (n : Nat) :
    countEvents .submission (runRedraws s n) = n ∧
    countEvents .presentation (runRedraws s n) = n := by
  induction n with
  | zero => exact ⟨rfl, rfl⟩
  | succ k ih =>
    have h1 : runRedraws s (k + 1) =
        runRedraws s k ++ [LoopEvent.submission, LoopEvent.presentation] := by
      simp [runRedraws, redrawRequested_some]
    refine ⟨?_, ?_⟩ <;>
      simp [countEvents, h1, List.count_append] <;>
      simp [countEvents] at ih <;> omega

/-- Reassembling a `u32` from its four little-endian bytes recovers the
value, provided it fits in 32 bits. -/
theorem u32_roundtrip (x : Nat) (hx : x < 2 ^ 32) :
    u32OfBytes (x % 256) (x / 256 % 256) (x / 256 / 256 % 256)
      (x / 256 / 256 / 256 % 256) = x := by
  unfold u32OfBytes
  omega

/-- The byte round-trip for the whole `Uniforms` struct. -/
theorem uniforms_bytes_roundtrip (u : Uniforms) (hw : u.width < 2 ^ 32)
    (hh : u.height < 2 ^ 32) : uniformsOfBytes (bytes_of u) = some u := by
  have h1 := u32_roundtrip u.width hw
  have h2 := u32_roundtrip u.height hh
  simp [bytes_of, u32Bytes, uniformsOfBytes, h1, h2]

/-! ## Claim theorems -/

/-- C1: for every target view, `render_frame` records exactly one
command encoder, one render pass on the target with clear-to-black load
and store store, the display pipeline, the bind group at index 0 (the
uniform buffer bound at binding 0), one draw of vertices 0..6 and
instances 0..1, ends the pass, finishes the encoder and submits exactly
one command buffer; and `n` redraw-driven calls produce exactly `n`
submissions and `n` presentations. -/
theorem render_frame_exact_sequence (w h : Nat) (fmt : TextureFormat)
    (target : TextureView) (n : Nat) :
    ((PathTracer.new w h fmt).render_frame target).2 =
      [RenderCmd.createCommandEncoder (some "render frame"),
       RenderCmd.beginRenderPass (some "display pass") target
         (LoadOp.Clear Color.BLACK) StoreOp.Store,
       RenderCmd.setPipeline (PathTracer.new w h fmt).display_pipeline,
       RenderCmd.setBindGroup 0 (PathTracer.new w h fmt).display_bind_group,
       RenderCmd.draw 0 6 0 1,
       RenderCmd.endRenderPass,
       RenderCmd.finishEncoder,
       RenderCmd.queueSubmit 1] ∧
    (PathTracer.new w h fmt).display_bind_group.entries =
      [{ binding := 0
         buffer_contents := bytes_of { width := w, height := h }
         offset := 0
         size := none }] ∧
    countEvents .submission (runRedraws (PathTracer.new w h fmt) n) = n ∧
    countEvents .presentation (runRedraws (PathTracer.new w h fmt) n) = n := by
  refine ⟨rfl, rfl, ?_, ?_⟩
  · exact (countEvents_runRedraws _ n).1
  · exact (countEvents_runRedraws _ n).2

/-- C2: whenever the capability-reported format list contains at least
one of `Rgba8Unorm`/`Bgra8Unorm`, `connect_to_gpu`'s selection returns
the first element of the list (in reported order) that is one of the
two, and the selection is a pure function of the list, so two runs on
the same list agree. -/
theorem selectFormat_first_accepted (formats : List TextureFormat)
    (hexists : ∃ f ∈ formats, isPreferredFormat f = true) :
    ∃ (i : Nat) (g : TextureFormat),
      formats[i]? = some g ∧
      selectFormat formats = some g ∧
      (g = TextureFormat.Rgba8Unorm ∨ g = TextureFormat.Bgra8Unorm) ∧
      (∀ j, j < i → ∀ y, formats[j]? = some y →
        y ≠ TextureFormat.Rgba8Unorm ∧ y ≠ TextureFormat.Bgra8Unorm) ∧
      selectFormat formats = selectFormat formats := by
  obtain ⟨i, g, hget, hfind, hpg, hfirst⟩ :=
    find?_first_index isPreferredFormat formats hexists
  refine ⟨i, g, hget, hfind, ?_, ?_, rfl⟩
  · cases g <;> simp_all [isPreferredFormat]
  · intro j hj y hy
    have := hfirst j hj y hy
    cases y <;> simp_all [isPreferredFormat]

/-- C2 witness: on the concrete list `[Rgba16Float, Bgra8Unorm,
Rgba8Unorm]`, the first accepted format (`Bgra8Unorm`, at index 1) is
selected. -/
theorem selectFormat_first_accepted_witness :
    ∃ (i : Nat) (g : TextureFormat),
      [TextureFormat.Rgba16Float, TextureFormat.Bgra8Unorm,
        TextureFormat.Rgba8Unorm][i]? = some g ∧
      selectFormat [TextureFormat.Rgba16Float, TextureFormat.Bgra8Unorm,
        TextureFormat.Rgba8Unorm] = some g ∧
      (g = TextureFormat.Rgba8Unorm ∨ g = TextureFormat.Bgra8Unorm) ∧
      (∀ j, j < i → ∀ y,
        [TextureFormat.Rgba16Float, TextureFormat.Bgra8Unorm,
          TextureFormat.Rgba8Unorm][j]? = some y →
        y ≠ TextureFormat.Rgba8Unorm ∧ y ≠ TextureFormat.Bgra8Unorm) ∧
      selectFormat [TextureFormat.Rgba16Float, TextureFormat.Bgra8Unorm,
        TextureFormat.Rgba8Unorm] =
        selectFormat [TextureFormat.Rgba16Float, TextureFormat.Bgra8Unorm,
          TextureFormat.Rgba8Unorm] :=
  selectFormat_first_accepted _
    ⟨TextureFormat.Bgra8Unorm, by decide, by decide⟩

/-- C3: `PathTracer::new` allocates the uniform buffer with size
exactly `size_of::<Uniforms>()` (8 bytes), mapped at creation; the
byte image written has exactly that length (so `copy_from_slice` fills
the region); the buffer ends up unmapped holding
`bytes_of(&uniforms)`; reading those bytes back as a `Uniforms`
recovers exactly the pair that was written. -/
theorem uniform_buffer_roundtrip (w h : Nat) (fmt : TextureFormat)
    (hw : w < 2 ^ 32) (hh : h < 2 ^ 32) :
    (PathTracer.new w h fmt).uniform_buffer.descriptor.size =
      size_of_Uniforms ∧
    size_of_Uniforms = 8 ∧
    (PathTracer.new w h fmt).uniform_buffer.descriptor.mapped_at_creation =
      true ∧
    (PathTracer.new w h fmt).uniform_buffer.contents =
      bytes_of { width := w, height := h } ∧
    (bytes_of { width := w, height := h } : List Nat).length =
      size_of_Uniforms ∧
    (PathTracer.new w h fmt).uniform_buffer.mapped = false ∧
    uniformsOfBytes (PathTracer.new w h fmt).uniform_buffer.contents =
      some { width := w, height := h } := by
  refine ⟨rfl, rfl, rfl, rfl, rfl, rfl, ?_⟩
  exact uniforms_bytes_roundtrip { width := w, height := h } hw hh

/-- C3 witness: the round-trip at the program's actual dimensions
960×544. -/
theorem uniform_buffer_roundtrip_witness :
    (960 < 2 ^ 32 ∧ 544 < 2 ^ 32) ∧
    ((PathTracer.new 960 544 TextureFormat.Rgba8Unorm).uniform_buffer.descriptor.size =
        size_of_Uniforms ∧
      size_of_Uniforms = 8 ∧
      (PathTracer.new 960 544 TextureFormat.Rgba8Unorm).uniform_buffer.descriptor.mapped_at_creation =
        true ∧
      (PathTracer.new 960 544 TextureFormat.Rgba8Unorm).uniform_buffer.contents =
        bytes_of { width := 960, height := 544 } ∧
      (bytes_of { width := 960, height := 544 } : List Nat).length =
        size_of_Uniforms ∧
      (PathTracer.new 960 544 TextureFormat.Rgba8Unorm).uniform_buffer.mapped =
        false ∧
      uniformsOfBytes (PathTracer.new 960 544 TextureFormat.Rgba8Unorm).uniform_buffer.contents =
        some { width := 960, height := 544 }) :=
  ⟨⟨by decide, by decide⟩,
    uniform_buffer_roundtrip 960 544 TextureFormat.Rgba8Unorm
      (by decide) (by decide)⟩

/-- C4: on successful negotiation, the surface configuration has
usage `RENDER_ATTACHMENT`, the selected format, the window's inner
width and height, present mode `AutoVsync`, desired maximum frame
latency 3, the first alpha mode of the capability-reported list, and no
extra view formats. -/
theorem surface_configuration_fields (caps : SurfaceCapabilities)
    (size : WindowSize) (cfg : SurfaceConfiguration)
    (fmt : TextureFormat)
    (hok : connect_to_gpu caps size = .ok (cfg, fmt)) :
    cfg.usage = TextureUsage.RENDER_ATTACHMENT ∧
    cfg.format = fmt ∧
    selectFormat caps.formats = some fmt ∧
    cfg.width = size.width ∧
    cfg.height = size.height ∧
    cfg.present_mode = PresentMode.AutoVsync ∧
    cfg.desired_maximum_frame_latency = 3 ∧
    caps.alpha_modes[0]? = some cfg.alpha_mode ∧
    cfg.view_formats = [] := by
  unfold connect_to_gpu at hok
  cases hsel : selectFormat caps.formats with
  | none => rw [hsel] at hok; cases hok
  | some g =>
    rw [hsel] at hok
    cases halpha : caps.alpha_modes[0]? with
    | none => rw [halpha] at hok; cases hok
    | some a =>
      rw [halpha] at hok
      cases hok
      exact ⟨rfl, rfl, rfl, rfl, rfl, rfl, rfl, rfl, rfl⟩

/-- C4 witness: a concrete capability list with `Bgra8Unorm` first and
alpha mode `Opaque`, at window size 960×544. -/
theorem surface_configuration_fields_witness :
    ({ usage := TextureUsage.RENDER_ATTACHMENT
       format := TextureFormat.Bgra8Unorm
       width := 960
       height := 544
       present_mode := PresentMode.AutoVsync
       desired_maximum_frame_latency := 3
       alpha_mode := CompositeAlphaMode.Opaque
       view_formats := [] } : SurfaceConfiguration).usage =
        TextureUsage.RENDER_ATTACHMENT ∧
    ({ usage := TextureUsage.RENDER_ATTACHMENT
       format := TextureFormat.Bgra8Unorm
       width := 960
       height := 544
       present_mode := PresentMode.AutoVsync
       desired_maximum_frame_latency := 3
       alpha_mode := CompositeAlphaMode.Opaque
       view_formats := [] } : SurfaceConfiguration).format = TextureFormat.Bgra8Unorm ∧
    selectFormat [TextureFormat.Bgra8Unorm] = some TextureFormat.Bgra8Unorm ∧
    ({ usage := TextureUsage.RENDER_ATTACHMENT
       format := TextureFormat.Bgra8Unorm
       width := 960
       height := 544
       present_mode := PresentMode.AutoVsync
       desired_maximum_frame_latency := 3
       alpha_mode := CompositeAlphaMode.Opaque
       view_formats := [] } : SurfaceConfiguration).width = 960 ∧
    ({ usage := TextureUsage.RENDER_ATTACHMENT
       format := TextureFormat.Bgra8Unorm
       width := 960
       height := 544
       present_mode := PresentMode.AutoVsync
       desired_maximum_frame_latency := 3
       alpha_mode := CompositeAlphaMode.Opaque
       view_formats := [] } : SurfaceConfiguration).height = 544 ∧
    ({ usage := TextureUsage.RENDER_ATTACHMENT
       format := TextureFormat.Bgra8Unorm
       width := 960
       height := 544
       present_mode := PresentMode.AutoVsync
       desired_maximum_frame_latency := 3
       alpha_mode := CompositeAlphaMode.Opaque
       view_formats := [] } : SurfaceConfiguration).present_mode = PresentMode.AutoVsync ∧
    ({ usage := TextureUsage.RENDER_ATTACHMENT
       format := TextureFormat.Bgra8Unorm
       width := 960
       height := 544
       present_mode := PresentMode.AutoVsync
       desired_maximum_frame_latency := 3
       alpha_mode := CompositeAlphaMode.Opaque
       view_formats := [] } : SurfaceConfiguration).desired_maximum_frame_latency = 3 ∧
    ([CompositeAlphaMode.Opaque][0]? =
      some ({ usage := TextureUsage.RENDER_ATTACHMENT
              format := TextureFormat.Bgra8Unorm
              width := 960
              height := 544
              present_mode := PresentMode.AutoVsync
              desired_maximum_frame_latency := 3
              alpha_mode := CompositeAlphaMode.Opaque
              view_formats := [] } : SurfaceConfiguration).alpha_mode) ∧
    ({ usage := TextureUsage.RENDER_ATTACHMENT
       format := TextureFormat.Bgra8Unorm
       width := 960
       height := 544
       present_mode := PresentMode.AutoVsync
       desired_maximum_frame_latency := 3
       alpha_mode := CompositeAlphaMode.Opaque
       view_formats := [] } : SurfaceConfiguration).view_formats = [] :=
  surface_configuration_fields
    { formats := [TextureFormat.Bgra8Unorm]
      alpha_modes := [CompositeAlphaMode.Opaque] }
    { width := 960, height := 544 }
    { usage := TextureUsage.RENDER_ATTACHMENT
      format := TextureFormat.Bgra8Unorm
      width := 960
      height := 544
      present_mode := PresentMode.AutoVsync
      desired_maximum_frame_latency := 3
      alpha_mode := CompositeAlphaMode.Opaque
      view_formats := [] }
    TextureFormat.Bgra8Unorm rfl

/-- C5: `create_display_pipeline` builds exactly one bind-group layout,
holding a single uniform-buffer binding at binding 0 visible only to
the fragment stage, and a pipeline with triangle-list topology,
counter-clockwise front faces, fill polygon mode, no depth/stencil
state, the default (one-sample, non-multisampled) multisample state,
and a single color target of the negotiated format with blending
disabled. -/
theorem display_pipeline_fields (fmt : TextureFormat) :
    (create_display_pipeline fmt).2.entries =
      [{ binding := 0
         visibility := { vertex := false, fragment := true, compute := false }
         ty := BindingType.Buffer BufferBindingType.Uniform false none
         count := none }] ∧
    (create_display_pipeline fmt).1.bind_group_layouts =
      [(create_display_pipeline fmt).2] ∧
    (create_display_pipeline fmt).1.primitive.topology =
      PrimitiveTopology.TriangleList ∧
    (create_display_pipeline fmt).1.primitive.front_face = FrontFace.Ccw ∧
    (create_display_pipeline fmt).1.primitive.polygon_mode =
      PolygonMode.Fill ∧
    (create_display_pipeline fmt).1.depth_stencil = none ∧
    (create_display_pipeline fmt).1.multisample = MultisampleState.default ∧
    (create_display_pipeline fmt).1.multisample.count = 1 ∧
    (create_display_pipeline fmt).1.fragment_targets =
      [some { format := fmt, blend := none, write_mask := ColorWrites.ALL }] :=
  ⟨rfl, rfl, rfl, rfl, rfl, rfl, rfl, rfl, rfl⟩

/-- C6: for every capability list containing neither `Rgba8Unorm` nor
`Bgra8Unorm`, `connect_to_gpu` returns the chained setup-error value
with the missing-preferred-format context message — an error value, not
a panic. -/
theorem no_preferred_format_error (caps : SurfaceCapabilities)
    (size : WindowSize)
    (h : ∀ f ∈ caps.formats, isPreferredFormat f = false) :
    connect_to_gpu caps size = .error (.setupError noFormatMsg) := by
  have hnone : selectFormat caps.formats = none := by
    rw [selectFormat, List.find?_eq_none]
    intro x hx
    simp [h x hx]
  unfold connect_to_gpu
  rw [hnone]

/-- C6 witness: a capability list holding only `Rgba16Float` and an
sRGB variant yields the setup error. -/
theorem no_preferred_format_error_witness :
    connect_to_gpu
        { formats := [TextureFormat.Rgba16Float,
                      TextureFormat.Bgra8UnormSrgb]
          alpha_modes := [CompositeAlphaMode.Auto] }
        { width := 960, height := 544 } =
      .error (.setupError noFormatMsg) :=
  no_preferred_format_error
    { formats := [TextureFormat.Rgba16Float, TextureFormat.Bgra8UnormSrgb]
      alpha_modes := [CompositeAlphaMode.Auto] }
    { width := 960, height := 544 }
    (by decide)

/-- C7: `render_frame` leaves the CPU-visible `PathTracer` state
unchanged; its recorded trace depends only on that unchanged state, so
a second invocation records the identical trace; and executing its
render pass twice on an attachment equals executing it once, for every
draw function that preserves the attachment's extent (the pass clears
before drawing, discarding prior contents). -/
theorem render_frame_stateless_idempotent (s : PathTracer)
    (target : TextureView) (t : Attachment)
    (drawFn : Uniforms → Attachment → Attachment)
    (hdraw : PreservesExtent drawFn) :
    (s.render_frame target).1 = s ∧
    ((s.render_frame target).1.render_frame target).2 =
      (s.render_frame target).2 ∧
    execDisplayPass drawFn s (execDisplayPass drawFn s t) =
      execDisplayPass drawFn s t := by
  refine ⟨rfl, rfl, ?_⟩
  unfold execDisplayPass
  have hclear : applyLoadOp (LoadOp.Clear Color.BLACK)
      (drawFn s.uniforms (applyLoadOp (LoadOp.Clear Color.BLACK) t)) =
      applyLoadOp (LoadOp.Clear Color.BLACK) t := by
    obtain ⟨hwidth, hheight⟩ :=
      hdraw s.uniforms (applyLoadOp (LoadOp.Clear Color.BLACK) t)
    simp [applyLoadOp] at hwidth hheight ⊢
    simp [hwidth, hheight]
  rw [hclear]

/-- C7 witness: the extent-preserving draw `whiteDraw`, on a concrete
renderer and a 1×1 attachment. -/
theorem render_frame_stateless_idempotent_witness :
    PreservesExtent whiteDraw ∧
    (((PathTracer.new 960 544 TextureFormat.Rgba8Unorm).render_frame 0).1 =
      PathTracer.new 960 544 TextureFormat.Rgba8Unorm ∧
    (((PathTracer.new 960 544 TextureFormat.Rgba8Unorm).render_frame 0).1.render_frame 0).2 =
      ((PathTracer.new 960 544 TextureFormat.Rgba8Unorm).render_frame 0).2 ∧
    execDisplayPass whiteDraw (PathTracer.new 960 544 TextureFormat.Rgba8Unorm)
        (execDisplayPass whiteDraw
          (PathTracer.new 960 544 TextureFormat.Rgba8Unorm)
          { width := 1, height := 1, pixels := [Color.BLACK] }) =
      execDisplayPass whiteDraw
        (PathTracer.new 960 544 TextureFormat.Rgba8Unorm)
        { width := 1, height := 1, pixels := [Color.BLACK] }) :=
  ⟨fun _ _ => ⟨rfl, rfl⟩,
    render_frame_stateless_idempotent
      (PathTracer.new 960 544 TextureFormat.Rgba8Unorm) 0
      { width := 1, height := 1, pixels := [Color.BLACK] }
      whiteDraw
      (fun _ _ => ⟨rfl, rfl⟩)⟩

/-- C8: in the redraw handler, failure to acquire the next presentable
image panics with the message `"Failed to get current texture"`; the
handler's result is a panic, not an `ok` value the frame loop could
receive and recover from. -/
theorem acquire_failure_panics (s : PathTracer) :
    redrawRequested s none = .panicked "Failed to get current texture" ∧
    (redrawRequested s none).isOk = false :=
  ⟨rfl, rfl⟩

/-- C9: `PathTracer::new` registers exactly one uncaptured-error hook
on the device (the list of registered hooks is exactly
`[uncapturedErrorHook]`), and for every device error that hook aborts
the process with the panic message — no error is routed to a
recoverable outcome. -/
theorem single_fatal_error_hook (w h : Nat) (fmt : TextureFormat)
    (e : DeviceError) :
    (PathTracer.new w h fmt).error_hooks = [uncapturedErrorHook] ∧
    (PathTracer.new w h fmt).error_hooks.length = 1 ∧
    uncapturedErrorHook e =
      .abortProcess ("Aborting due to an error: " ++ e.text) ∧
    (uncapturedErrorHook e).isFatal = true :=
  ⟨rfl, rfl, rfl, rfl⟩

/-- C10: when the capability list reports an accepted format but an
empty alpha-modes list, `connect_to_gpu` panics from the unchecked
`caps.alpha_modes[0]` index instead of returning a chained setup
error: the function only reaches the successful configuration under
the precondition that at least one alpha mode is reported. -/
theorem empty_alpha_modes_panics (caps : SurfaceCapabilities)
    (size : WindowSize)
    (hfmt : ∃ f ∈ caps.formats, isPreferredFormat f = true)
    (halpha : caps.alpha_modes = []) :
    connect_to_gpu caps size =
      .error (.panicked "index out of bounds: the len is 0 but the index is 0") := by
  obtain ⟨g, hg⟩ := selectFormat_isSome caps.formats hfmt
  unfold connect_to_gpu
  rw [hg, halpha]
  rfl

/-- C10 witness: formats `[Rgba8Unorm]` with no reported alpha mode. -/
theorem empty_alpha_modes_panics_witness :
    connect_to_gpu
        { formats := [TextureFormat.Rgba8Unorm], alpha_modes := [] }
        { width := 960, height := 544 } =
      .error (.panicked "index out of bounds: the len is 0 but the index is 0") :=
  empty_alpha_modes_panics
    { formats := [TextureFormat.Rgba8Unorm], alpha_modes := [] }
    { width := 960, height := 544 }
    ⟨TextureFormat.Rgba8Unorm, by decide, by decide⟩
    rfl

end GpuTracing
